import Mathlib

/-!
Verification of the community-showcase submission workflow.

The repository is a thin server layer over a forum backend.  The functions
verified here are shallow embeddings of the server actions in
`src/app/showcase/actions.ts` (the primary implementation), of the
refactored helper `threadToSubmission` and the zod-validated
`createSubmission` in the alternate revision `src/unnamed/part_000`, of the
legacy approve/reject variant in `src/unnamed/part_001`, and of the
cover-image selection in the card component (`src/unnamed/part_004`).

JavaScript values stored in the free-form `extendedData` bag of a thread are
modelled by the JSON-like type `JVal`; JavaScript truthiness and the
`a || b` default idiom are modelled by `truthy` and `jsOr`.
-/

namespace Showcase

/-- JSON-like values held in the free-form extension-data bag of a thread.
`null` also stands for JavaScript `undefined` (an absent field): both are
falsy, both fail every strict string comparison used by the code, and the
code never distinguishes them. Numbers are modelled as integers (the code
only ever stores and checks integer counts and indices). -/
inductive JVal where
  | null : JVal
  | bool : Bool → JVal
  | num : Int → JVal
  | str : String → JVal
  | arr : List JVal → JVal
  | obj : List (String × JVal) → JVal

/-- An extension-data bag: an object, modelled as an association list read
through `getField` (first binding wins, as in a JavaScript object where
keys are unique). -/
def ExtData : Type := List (String × JVal)

/-- JavaScript truthiness of a `JVal` (`undefined`, `null`, `false`, `0`
and the empty string are falsy; arrays and objects are always truthy). -/
def truthy : JVal → Bool
  | JVal.null => false
  | JVal.bool b => b
  | JVal.num n => n != 0
  | JVal.str s => s != ""
  | JVal.arr _ => true
  | JVal.obj _ => true

/-- The JavaScript `a || b` defaulting idiom on bag values. -/
def jsOr (a b : JVal) : JVal := if truthy a then a else b

/-- Property read on an object bag; an absent key reads as
`undefined`, modelled by `JVal.null`. -/
def getField : ExtData → String → JVal
  | [], _ => JVal.null
  | (k, v) :: rest, key => if k = key then v else getField rest key

/-- The object produced by the JavaScript spread-and-override
`\x7b ...fs, key: v \x7d`: every key other than `key` reads as in `fs`,
and `key` reads as `v` (bindings for `key` are replaced, others kept). -/
def objSet : ExtData → String → JVal → ExtData
  | [], key, v => [(key, v)]
  | p :: rest, key, v =>
    if p.1 = key then objSet rest key v else p :: objSet rest key v

/-- The thread record shape consumed by the showcase actions
(the fields of the SDK `ThreadData` that the code reads).
`countReactions` models the optional `_count?.reactions` field and
`extendedData` may be `null` as in the SDK type. -/
structure ThreadData where
  id : String
  title : String
  body : String
  extendedData : Option ExtData
  createdAt : String
  userId : Option String
  countReactions : Option Nat

/-- Read of `thread.extendedData?.key`: `null`/absent bag reads as
`undefined`. -/
def extOf (t : ThreadData) (key : String) : JVal :=
  match t.extendedData with
  | none => JVal.null
  | some fs => getField fs key

/-- A moderation report record, as read by the pending-queue code. -/
structure ReportData where
  id : String
  type : String
  status : Option String
  threadId : Option String

/-- The `ShowcaseSubmission` value produced by the server actions.  Fields
read out of the untyped extension-data bag are kept as raw `JVal`s because
the source reads them with unchecked TypeScript casts: a present value of
the wrong shape flows through unconverted. -/
structure Submission where
  id : String
  title : String
  description : String
  images : JVal
  mainImageIndex : JVal
  projectUrl : JVal
  authorId : String
  authorName : JVal
  status : JVal
  createdAt : String
  reportId : Option String
  upvotes : Nat

/-- Model of `thread.createdAt || new Date().toISOString()`: the impure current
time is passed in as `now`. -/
def createdAtOr (now : String) (createdAt : String) : String :=
  if createdAt = "" then now else createdAt

/-- Embedding of `threadToSubmission` (src/unnamed/part_000, refactored
revision): maps a thread plus optional report id to a submission,
defaulting each falsy bag read (`ext.images || []` etc.) and passing
`projectUrl` through raw. -/
def threadToSubmission (now : String) (t : ThreadData) (reportId : Option String) :
    Submission :=
  { id := t.id
    title := t.title
    description := t.body
    images := jsOr (extOf t "images") (JVal.arr [])
    mainImageIndex := jsOr (extOf t "mainImageIndex") (JVal.num 0)
    projectUrl := extOf t "projectUrl"
    authorId := t.userId.getD ""
    authorName := jsOr (extOf t "authorName") (JVal.str "Anonymous")
    status := jsOr (extOf t "status") (JVal.str "pending")
    createdAt := createdAtOr now t.createdAt
    reportId := reportId
    upvotes := t.countReactions.getD 0 }

/-- JavaScript strict equality `v === s` between a bag value and a string
literal (true only for an equal string). -/
def jIsStr (v : JVal) (s : String) : Bool :=
  match v with
  | JVal.str t => t = s
  | _ => false

/-- The JavaScript `a || b` defaulting idiom on strings. -/
def strOr (a b : String) : String := if a = "" then b else a

/-- An uploaded image entry, `\x7burl, name\x7d`. -/
structure ImageUpload where
  url : String
  name : String

/-- The caller resolved from the bearer token by `auth.me`; `none` models
a missing token or a failed `auth.me` call.  `isAdmin` is the result of
the role check in `isUserAdmin` / `getAuthContext`. -/
structure AuthUser where
  id : String
  username : String
  displayName : Option String
  isAdmin : Bool

/-- The filter applied by `getApprovedSubmissions`
(src/app/showcase/actions.ts lines 260-265). -/
def isApprovedShowcase (t : ThreadData) : Bool :=
  jIsStr (extOf t "type") "showcase_submission" &&
    jIsStr (extOf t "status") "approved"

/-- The inline thread-to-submission object literal of
`getApprovedSubmissions` (src/app/showcase/actions.ts lines 266-279):
note `status` is read raw with no default (the filter has already
established it) and no `reportId` is attached. -/
def mapApprovedThread (now : String) (t : ThreadData) : Submission :=
  { id := t.id
    title := t.title
    description := t.body
    images := jsOr (extOf t "images") (JVal.arr [])
    mainImageIndex := jsOr (extOf t "mainImageIndex") (JVal.num 0)
    projectUrl := extOf t "projectUrl"
    authorId := t.userId.getD ""
    authorName := jsOr (extOf t "authorName") (JVal.str "Anonymous")
    status := extOf t "status"
    createdAt := createdAtOr now t.createdAt
    reportId := none
    upvotes := t.countReactions.getD 0 }

/-- Body of `getApprovedSubmissions` on a successfully drained thread list. -/
def getApprovedSubmissionsOk (now : String) (threads : List ThreadData) :
    List Submission :=
  (threads.filter isApprovedShowcase).map (mapApprovedThread now)

/-- Embedding of `getApprovedSubmissions` (src/app/showcase/actions.ts
lines 248-284).  The drained thread list is passed in as `fetched`; a
backend/network failure anywhere in the drain is the `Except.error` case,
which the surrounding try/catch turns into an empty list. -/
def getApprovedSubmissions (now : String) (fetched : Except Unit (List ThreadData)) :
    List Submission :=
  match fetched with
  | Except.error _ => []
  | Except.ok threads => getApprovedSubmissionsOk now threads

/-- The inline mapper of `getMySubmissions` (src/app/showcase/actions.ts
lines 306-319): identical to the approved one except that `status` is
defaulted to `pending`. -/
def mapMyThread (now : String) (t : ThreadData) : Submission :=
  { mapApprovedThread now t with
    status := jsOr (extOf t "status") (JVal.str "pending") }

/-- Body of `getMySubmissions` on a successfully drained list of threads
authored by the caller. -/
def getMySubmissionsOk (now : String) (threads : List ThreadData) :
    List Submission :=
  (threads.filter
    (fun t => jIsStr (extOf t "type") "showcase_submission")).map (mapMyThread now)

/-- Embedding of `getMySubmissions` (src/app/showcase/actions.ts lines
287-324): unauthenticated callers (no token, or a failed `auth.me`) get
an empty list before any fetch; a failed fetch is swallowed to an empty
list.  `fetched` is the drained list of threads authored by the caller. -/
def getMySubmissions (now : String) (ctx : Option AuthUser)
    (fetched : Except Unit (List ThreadData)) : List Submission :=
  match ctx with
  | none => []
  | some _ =>
    match fetched with
    | Except.error _ => []
    | Except.ok threads => getMySubmissionsOk now threads

/-- Model of `threads.retrieve` against a snapshot of the thread store: `none`
models the deleted-thread case in which the SDK call throws. -/
def lookupThread (store : List ThreadData) (tid : String) : Option ThreadData :=
  store.find? (fun t => t.id = tid)

/-- The JavaScript truthiness test `report.threadId` on an optional
string field: present and nonempty. -/
def reportThreadId (r : ReportData) : Option String :=
  match r.threadId with
  | none => none
  | some tid => if tid = "" then none else some tid

/-- The inline mapper of `getPendingSubmissions`
(src/app/showcase/actions.ts lines 349-362): `status` is hardcoded to
`pending` and `reportId` is taken from the driving report. -/
def mapPendingThread (now : String) (t : ThreadData) (reportId : String) :
    Submission :=
  { mapApprovedThread now t with
    status := JVal.str "pending"
    reportId := some reportId }

/-- The report loop of `getPendingSubmissions`: keep reports typed
`showcase_submission` with a (truthy) thread reference, resolve each
thread (a deleted thread is silently skipped), keep threads carrying the
showcase type marker, and map them with the pending mapper. -/
def getPendingSubmissionsOk (now : String) (store : List ThreadData) :
    List ReportData → List Submission
  | [] => []
  | r :: rest =>
    let tail := getPendingSubmissionsOk now store rest
    if r.type = "showcase_submission" then
      match reportThreadId r with
      | none => tail
      | some tid =>
        match lookupThread store tid with
        | none => tail
        | some t =>
          if jIsStr (extOf t "type") "showcase_submission" then
            mapPendingThread now t r.id :: tail
          else tail
    else tail

/-- Embedding of `getPendingSubmissions` (src/app/showcase/actions.ts
lines 327-375): non-admins (including unauthenticated callers) get an
empty list; a failure draining the pending reports is swallowed to an
empty list.  `fetched` is the drained list of pending reports and
`store` the thread store used by `threads.retrieve`. -/
def getPendingSubmissions (now : String) (ctx : Option AuthUser)
    (fetched : Except Unit (List ReportData)) (store : List ThreadData) :
    List Submission :=
  match ctx with
  | none => []
  | some u =>
    if u.isAdmin then
      match fetched with
      | Except.error _ => []
      | Except.ok reports => getPendingSubmissionsOk now store reports
    else []

/-- Result shape `\x7bsuccess: boolean, error?: string\x7d` of the
mutating actions in src/app/showcase/actions.ts. -/
inductive SimpleResult where
  | ok : SimpleResult
  | err : String → SimpleResult

/-- The writes an admin action issues to the backend: an optional
`threads.update` (thread id, new extension-data) and an optional
`reports.update` (report id, new status). -/
structure AdminWrites where
  threadWrite : Option (String × ExtData)
  reportWrite : Option (String × String)

/-- No backend write issued. -/
def noWrites : AdminWrites := { threadWrite := none, reportWrite := none }

/-- Embedding of `approveSubmission` (src/app/showcase/actions.ts lines
378-408): after the admin check it retrieves the thread, merges
`status: approved` over the current extension-data with a spread, and
updates the report status; a missing thread makes the try-block throw
with nothing written. -/
def approveSubmission (isAdmin : Bool) (store : List ThreadData)
    (threadId reportId : String) : SimpleResult × AdminWrites :=
  if isAdmin then
    match lookupThread store threadId with
    | none => (SimpleResult.err "Failed to approve submission", noWrites)
    | some t =>
      (SimpleResult.ok,
        { threadWrite :=
            some (threadId, objSet (t.extendedData.getD []) "status" (JVal.str "approved"))
          reportWrite := some (reportId, "approved") })
  else (SimpleResult.err "Not authorized", noWrites)

/-- Embedding of `rejectSubmission` (src/app/showcase/actions.ts lines
411-441), identical to approval with status `rejected`. -/
def rejectSubmission (isAdmin : Bool) (store : List ThreadData)
    (threadId reportId : String) : SimpleResult × AdminWrites :=
  if isAdmin then
    match lookupThread store threadId with
    | none => (SimpleResult.err "Failed to reject submission", noWrites)
    | some t =>
      (SimpleResult.ok,
        { threadWrite :=
            some (threadId, objSet (t.extendedData.getD []) "status" (JVal.str "rejected"))
          reportWrite := some (reportId, "rejected") })
  else (SimpleResult.err "Not authorized", noWrites)

/-- Embedding of the legacy `approveSubmission` variant
(src/unnamed/part_001 lines 252-277): no read of the current bag; the
thread update carries the one-field object `\x7bstatus: "approved"\x7d`
wholesale. -/
def approveSubmissionV1 (isAdmin : Bool) (threadId reportId : String) :
    SimpleResult × AdminWrites :=
  if isAdmin then
    (SimpleResult.ok,
      { threadWrite := some (threadId, [("status", JVal.str "approved")])
        reportWrite := some (reportId, "approved") })
  else (SimpleResult.err "Not authorized", noWrites)

/-- Embedding of the legacy `rejectSubmission` variant
(src/unnamed/part_001 lines 280-305). -/
def rejectSubmissionV1 (isAdmin : Bool) (threadId reportId : String) :
    SimpleResult × AdminWrites :=
  if isAdmin then
    (SimpleResult.ok,
      { threadWrite := some (threadId, [("status", JVal.str "rejected")])
        reportWrite := some (reportId, "rejected") })
  else (SimpleResult.err "Not authorized", noWrites)

/-- A like/react record on a thread as returned by
`threads.listReactions`. -/
structure Reaction where
  id : String
  userId : String
  type : String

/-- Outcome of `toggleUpvote` as seen by the caller. -/
inductive ToggleResult where
  | liked : ToggleResult
  | unliked : ToggleResult
  | err : String → ToggleResult

/-- The linear scan
`reactions.find(r => r.userId === user.id && r.type === "LIKE")`. -/
def findLike (userId : String) (rs : List Reaction) : Option Reaction :=
  rs.find? (fun r => r.userId = userId && r.type = "LIKE")

/-- Embedding of `toggleUpvote` (src/app/showcase/actions.ts lines
444-479) on the reaction list of the thread: an unauthenticated caller is
rejected; otherwise the existing LIKE of the caller (found by linear scan) is
deleted by id, or a fresh LIKE with backend-assigned id `freshId` is
created.  Returns the action result and the reaction list of the thread after
the call. -/
def toggleUpvote (ctx : Option AuthUser) (freshId : String)
    (rs : List Reaction) : ToggleResult × List Reaction :=
  match ctx with
  | none => (ToggleResult.err "Not authenticated", rs)
  | some u =>
    match findLike u.id rs with
    | some r => (ToggleResult.unliked, rs.filter (fun x => x.id ≠ r.id))
    | none =>
      (ToggleResult.liked, rs ++ [{ id := freshId, userId := u.id, type := "LIKE" }])

/-- One page returned by a cursor-based list endpoint. -/
structure Page (T : Type) where
  items : List T
  nextCursor : Option String

/-- Embedding of the `paginateAll` helper (src/app/showcase/actions.ts
lines 232-245).  The do/while loop is modelled with explicit fuel: `none`
is returned only when the fuel runs out before the cursor chain ends,
which models the nonterminating run the source would perform on a
never-ending cursor chain. -/
def paginateAllFuel {T : Type} (f : Option String → Page T) :
    Nat → Option String → Option (List T)
  | 0, _ => none
  | n + 1, c =>
    let p := f c
    match p.nextCursor with
    | none => some p.items
    | some c2 => (paginateAllFuel f n (some c2)).map (fun rest => p.items ++ rest)

/-- The relation `Generates f c ps` says the page function `f`, started at
cursor `c`, yields exactly the pages `ps` in order: the `nextCursor` of each
page is the
cursor the next page is fetched with, and the last page has none. -/
inductive Generates {T : Type} (f : Option String → Page T) :
    Option String → List (Page T) → Prop where
  | last : ∀ c p, f c = p → p.nextCursor = none → Generates f c [p]
  | step : ∀ c p c2 ps, f c = p → p.nextCursor = some c2 →
      Generates f (some c2) ps → Generates f c (p :: ps)

/-- Creation input shape of `createSubmission`.  `mainImageIndex` is an
`Int` so the zod integer check is built into the model; `projectUrl` is
optional as in the source. -/
structure CreateInput where
  title : String
  description : String
  images : List ImageUpload
  mainImageIndex : Int
  projectUrl : Option String

/-- One field-level issue of a failed zod parse (path plus message). -/
structure ValidationIssue where
  path : String
  message : String

/-- Issues raised by `z.string().min(1, "Title is required").max(200)`. -/
def titleIssues (title : String) : List ValidationIssue :=
  (if title.length < 1 then [⟨"title", "Title is required"⟩] else []) ++
    (if title.length > 200 then
      [⟨"title", "String must contain at most 200 character(s)"⟩] else [])

/-- Issues raised by the description rule: min 10, max 5000 characters. -/
def descriptionIssues (description : String) : List ValidationIssue :=
  (if description.length < 10 then
    [⟨"description", "Description must be at least 10 characters"⟩] else []) ++
    (if description.length > 5000 then
      [⟨"description", "String must contain at most 5000 character(s)"⟩] else [])

/-- Issue raised on one image entry whose `url` fails the zod URL check;
`validUrl` stands for the URL well-formedness test of the zod library. -/
def imageIssues (validUrl : String → Bool) (idx : Nat) (img : ImageUpload) :
    List ValidationIssue :=
  if validUrl img.url then []
  else [⟨"images." ++ toString idx ++ ".url", "Invalid image URL"⟩]

/-- The element walk of the zod array check: issues of each image entry
in order, paths indexed from `idx`. -/
def imagesElemIssues (validUrl : String → Bool) :
    Nat → List ImageUpload → List ValidationIssue
  | _, [] => []
  | idx, img :: rest =>
    imageIssues validUrl idx img ++ imagesElemIssues validUrl (idx + 1) rest

/-- Issues raised by the images rule: each entry a well-formed URL plus a
name, between 1 and 10 entries. -/
def imagesIssues (validUrl : String → Bool) (images : List ImageUpload) :
    List ValidationIssue :=
  imagesElemIssues validUrl 0 images ++
    (if images.length < 1 then
      [⟨"images", "At least one image is required"⟩] else []) ++
    (if images.length > 10 then
      [⟨"images", "Array must contain at most 10 element(s)"⟩] else [])

/-- Issue raised by `z.number().int().min(0)` on the main-image index
(integrality is carried by the `Int` type of the model). -/
def mainImageIndexIssues (idx : Int) : List ValidationIssue :=
  if idx < 0 then
    [⟨"mainImageIndex", "Number must be greater than or equal to 0"⟩]
  else []

/-- Issue raised by `z.string().url().optional().or(z.literal(""))` on
the project link: absent and empty are fine, anything else must be a
well-formed URL. -/
def projectUrlIssues (validUrl : String → Bool) (projectUrl : Option String) :
    List ValidationIssue :=
  match projectUrl with
  | none => []
  | some u => if u = "" then [] else if validUrl u then []
      else [⟨"projectUrl", "Invalid project URL"⟩]

/-- Embedding of `createSubmissionSchema.safeParse` (src/unnamed/part_000
lines 24-33): all field issues, collected in schema order; an empty list
means the parse succeeded. -/
def validateCreateSubmission (validUrl : String → Bool) (input : CreateInput) :
    List ValidationIssue :=
  titleIssues input.title ++ descriptionIssues input.description ++
    imagesIssues validUrl input.images ++
      mainImageIndexIssues input.mainImageIndex ++
        projectUrlIssues validUrl input.projectUrl

/-- The structured error codes of the `ActionError` union in
src/unnamed/part_000 lines 41-46. -/
inductive ErrCode where
  | unauthorized : ErrCode
  | validationError : ErrCode
  | notFound : ErrCode
  | rateLimited : ErrCode
  | internalError : ErrCode
deriving DecidableEq

/-- A structured action error: code, message, and (for validation
failures) the per-field issue list. -/
structure ActionError where
  code : ErrCode
  message : String
  details : List ValidationIssue

/-- Result of `createSubmission`: the new thread id, or a structured
error. -/
inductive CreateResult where
  | ok : String → CreateResult
  | err : ActionError → CreateResult

/-- Classification of a thrown backend error by the catch blocks of
src/unnamed/part_000 (they look only at `statusCode`). -/
inductive BackendFail where
  | rateLimited : BackendFail
  | notFoundFail : BackendFail
  | otherFail : BackendFail

/-- What the backend does with the two writes of `createSubmission`: both
succeed (yielding the new thread id), the thread create throws, or the
thread is created and the report create throws. -/
inductive CreateBackend where
  | ok : String → CreateBackend
  | threadCreateFails : BackendFail → CreateBackend
  | reportCreateFails : String → BackendFail → CreateBackend

/-- The error produced by the catch block of `createSubmission`
(src/unnamed/part_000 lines 360-372): status 429 is surfaced as
rate-limiting, everything else as an internal error. -/
def createFailError : BackendFail → ActionError
  | BackendFail.rateLimited =>
    ⟨ErrCode.rateLimited, "Too many requests. Please try again later.", []⟩
  | _ => ⟨ErrCode.internalError, "Failed to create submission", []⟩

/-- A write issued to the backend by `createSubmission`. -/
inductive WriteEffect where
  | createThread : String → String → ExtData → WriteEffect
  | createReport : String → String → String → String → WriteEffect

/-- The JSON encoding of the uploaded image list stored in
extension-data. -/
def encodeImages (imgs : List ImageUpload) : JVal :=
  JVal.arr (imgs.map (fun i =>
    JVal.obj [("url", JVal.str i.url), ("name", JVal.str i.name)]))

/-- The extension-data bag written by `createSubmission`
(src/unnamed/part_000 lines 332-340). -/
def submissionExtData (input : CreateInput) (user : AuthUser) : ExtData :=
  [("type", JVal.str "showcase_submission"),
   ("images", encodeImages input.images),
   ("mainImageIndex", JVal.num input.mainImageIndex),
   ("projectUrl", JVal.str (input.projectUrl.getD "")),
   ("status", JVal.str "pending"),
   ("authorName", JVal.str (strOr ((user.displayName).getD "") user.username)),
   ("upvotes", JVal.num 0)]

/-- Embedding of `createSubmission` (src/unnamed/part_000 lines 299-373):
validate first (returning all field issues, with the first message
surfaced, and no write), then require an authenticated caller, then
create the thread and its review report, classifying any thrown backend
error.  The second component lists the writes that actually reached the
backend. -/
def createSubmission (validUrl : String → Bool) (input : CreateInput)
    (ctx : Option AuthUser) (backend : CreateBackend) :
    CreateResult × List WriteEffect :=
  match validateCreateSubmission validUrl input with
  | i :: rest =>
    (CreateResult.err ⟨ErrCode.validationError, i.message, i :: rest⟩, [])
  | [] =>
    match ctx with
    | none => (CreateResult.err ⟨ErrCode.unauthorized, "Not authenticated", []⟩, [])
    | some user =>
      match backend with
      | CreateBackend.ok tid =>
        (CreateResult.ok tid,
         [WriteEffect.createThread input.title input.description
            (submissionExtData input user),
          WriteEffect.createReport tid "showcase_submission" "pending"
            ("New showcase submission: " ++ input.title)])
      | CreateBackend.threadCreateFails e => (CreateResult.err (createFailError e), [])
      | CreateBackend.reportCreateFails _ e =>
        (CreateResult.err (createFailError e),
         [WriteEffect.createThread input.title input.description
            (submissionExtData input user)])

/-- Embedding of the cover-image selection of the card component
(src/unnamed/part_004 lines 71-84):
`images[mainImageIndex]?.url || images[0].url` behind an
`images.length > 0` guard; `none` means the placeholder block (no `img`
element) is rendered instead. -/
def cardCoverSrc (images : List ImageUpload) (mainImageIndex : Int) :
    Option String :=
  match images with
  | [] => none
  | first :: _ =>
    let hit : Option ImageUpload :=
      if mainImageIndex < 0 then none else images[mainImageIndex.toNat]?
    some (match hit with
          | some img => strOr img.url first.url
          | none => first.url)

/-- A thread after the cached-upvote field of its extension-data bag has
been rewritten to `v` (used to show listings never read that field). -/
def setCachedUpvotes (v : JVal) (t : ThreadData) : ThreadData :=
  { t with extendedData := some (objSet (t.extendedData.getD []) "upvotes" v) }

/-- The number of LIKE reactions in a reaction list: the live upvote
count of a thread. -/
def likeCount (rs : List Reaction) : Nat :=
  (rs.filter (fun r => r.type = "LIKE")).length

/-- Sample image list used by concrete witnesses. -/
def sampleImages : List ImageUpload :=
  [{ url := "https://example.com/a.png", name := "a.png" },
   { url := "https://example.com/b.png", name := "b.png" }]

/-- Sample extension-data bag of an already-approved showcase thread. -/
def sampleExt : ExtData :=
  [("type", JVal.str "showcase_submission"),
   ("images", encodeImages sampleImages),
   ("mainImageIndex", JVal.num 0),
   ("projectUrl", JVal.str ""),
   ("status", JVal.str "approved"),
   ("authorName", JVal.str "Alice"),
   ("upvotes", JVal.num 3)]

/-- Sample thread record used by concrete witnesses. -/
def sampleThread : ThreadData :=
  { id := "t1", title := "Demo", body := "A ten-char desc",
    extendedData := some sampleExt, createdAt := "2024-01-01",
    userId := some "u1", countReactions := some 2 }

/-- Sample pending report pointing at `sampleThread`. -/
def sampleReport : ReportData :=
  { id := "r1", type := "showcase_submission", status := some "pending",
    threadId := some "t1" }

/-- Sample creation input satisfying every constraint. -/
def sampleGoodInput : CreateInput :=
  { title := "Demo", description := "A ten-char desc", images := sampleImages,
    mainImageIndex := 0, projectUrl := none }

/-- Sample creation input violating the title, description, images and
main-image-index constraints at once. -/
def sampleBadInput : CreateInput :=
  { title := "", description := "short", images := [],
    mainImageIndex := -1, projectUrl := none }

/-- Sample admin caller. -/
def sampleAdmin : AuthUser :=
  { id := "u9", username := "admin", displayName := none, isAdmin := true }

/-- Sample non-admin caller. -/
def sampleUser : AuthUser :=
  { id := "u1", username := "alice", displayName := some "Alice", isAdmin := false }

/-!  Theorems.  First general lemmas about the embedding, then one named
theorem per verified claim (with a closed witness where the claim theorem
carries hypotheses). -/

theorem getField_objSet_same (fs : ExtData) (key : String) (v : JVal) :
    getField (objSet fs key v) key = v := by
  induction fs with
  | nil => simp [objSet, getField]
  | cons p rest ih =>
    by_cases hp : p.1 = key
    · simpa [objSet, hp] using ih
    · simpa [objSet, hp, getField] using ih

theorem getField_objSet_other (fs : ExtData) (key k : String) (v : JVal)
    (hk : k ≠ key) : getField (objSet fs key v) k = getField fs k := by
  induction fs with
  | nil => simp [objSet, getField, Ne.symm hk]
  | cons p rest ih =>
    by_cases hp : p.1 = key
    · simpa [objSet, hp, getField, Ne.symm hk] using ih
    · by_cases hpk : p.1 = k
      · simp [objSet, hp, getField, hpk, hk]
      · simpa [objSet, hp, getField, hpk] using ih

theorem paginateAllFuel_eq_of_generates {T : Type} (f : Option String → Page T) :
    ∀ (c : Option String) (ps : List (Page T)), Generates f c ps →
      ∀ fuel : Nat, ps.length ≤ fuel →
        paginateAllFuel f fuel c = some (ps.map Page.items).flatten := by
  intro c ps h
  induction h with
  | last c p hf hn =>
    intro fuel hfuel
    cases fuel with
    | zero => simp at hfuel
    | succ n => simp [paginateAllFuel, hf, hn]
  | step c p c2 ps hf hn _ ih =>
    intro fuel hfuel
    cases fuel with
    | zero => simp at hfuel
    | succ n =>
      have hlen : ps.length ≤ n := by simpa using hfuel
      simp [paginateAllFuel, hf, hn, ih n hlen]

/-- Claim C8: for every page function that, from the empty cursor,
produces the terminating page chain `ps` (each page fetched with the
cursor returned by the previous one, stopping at the first page with no
next cursor), `paginateAll` returns exactly the ordered concatenation of
the items of those pages. -/
theorem paginateAll_drains_all_pages {T : Type} (f : Option String → Page T)
    (ps : List (Page T)) (fuel : Nat) (hgen : Generates f none ps)
    (hfuel : ps.length ≤ fuel) :
    paginateAllFuel f fuel none = some (ps.map Page.items).flatten :=
  paginateAllFuel_eq_of_generates f none ps hgen fuel hfuel

/-- Witness for C8: a concrete two-page drain, with the pages
concatenated in order. -/
theorem paginateAll_drains_all_pages_witness :
    paginateAllFuel
      (fun c => match c with
        | none => { items := [1, 2], nextCursor := some "next" }
        | some _ => { items := [3], nextCursor := none }) 2 none =
      some [1, 2, 3] := by
  have h := paginateAll_drains_all_pages
    (fun c => match c with
      | none => { items := [1, 2], nextCursor := some "next" }
      | some _ => { items := [3], nextCursor := none })
    [{ items := [1, 2], nextCursor := some "next" },
     { items := [3], nextCursor := none }] 2
    (Generates.step none _ "next" _ rfl rfl (Generates.last _ _ rfl rfl))
    (by simp)
  simpa using h

/-- Claim C6: the read paths never surface a hard error: a backend
failure in any of the three listings yields an empty list, an
unauthenticated caller gets an empty list from `getMySubmissions`, and a
non-admin (or unauthenticated) caller gets an empty list from
`getPendingSubmissions`. -/
theorem read_paths_never_error :
    (∀ now : String, getApprovedSubmissions now (Except.error ()) = []) ∧
    (∀ (now : String) (fetched : Except Unit (List ThreadData)),
      getMySubmissions now none fetched = []) ∧
    (∀ (now : String) (u : AuthUser),
      getMySubmissions now (some u) (Except.error ()) = []) ∧
    (∀ (now : String) (fetched : Except Unit (List ReportData))
        (store : List ThreadData),
      getPendingSubmissions now none fetched store = []) ∧
    (∀ (now idu un : String) (dn : Option String)
        (fetched : Except Unit (List ReportData)) (store : List ThreadData),
      getPendingSubmissions now
        (some { id := idu, username := un, displayName := dn, isAdmin := false })
        fetched store = []) ∧
    (∀ (now : String) (u : AuthUser) (store : List ThreadData),
      getPendingSubmissions now (some u) (Except.error ()) store = []) := by
  refine ⟨fun _ => rfl, fun _ _ => rfl, fun _ _ => rfl, fun _ _ _ => rfl, ?_, ?_⟩
  · intro now idu un dn fetched store
    simp [getPendingSubmissions]
  · intro now u store
    cases h : u.isAdmin <;> simp [getPendingSubmissions, h]

theorem mem_getApprovedSubmissionsOk {now : String} {ts : List ThreadData}
    {s : Submission} (hs : s ∈ getApprovedSubmissionsOk now ts) :
    ∃ t ∈ ts, jIsStr (extOf t "type") "showcase_submission" = true ∧
      jIsStr (extOf t "status") "approved" = true ∧ s = mapApprovedThread now t := by
  obtain ⟨t, ht, rfl⟩ := List.mem_map.mp hs
  obtain ⟨htm, hpred⟩ := List.mem_filter.mp ht
  have hp := hpred
  simp only [isApprovedShowcase, Bool.and_eq_true] at hp
  exact ⟨t, htm, hp.1, hp.2, rfl⟩

theorem mem_getMySubmissionsOk {now : String} {ts : List ThreadData}
    {s : Submission} (hs : s ∈ getMySubmissionsOk now ts) :
    ∃ t ∈ ts, jIsStr (extOf t "type") "showcase_submission" = true ∧
      s = mapMyThread now t := by
  obtain ⟨t, ht, rfl⟩ := List.mem_map.mp hs
  obtain ⟨htm, hpred⟩ := List.mem_filter.mp ht
  exact ⟨t, htm, hpred, rfl⟩

theorem mem_getPendingSubmissionsOk {now : String} {store : List ThreadData} :
    ∀ {reports : List ReportData} {s : Submission},
      s ∈ getPendingSubmissionsOk now store reports →
      ∃ r ∈ reports, r.type = "showcase_submission" ∧
        ∃ tid, reportThreadId r = some tid ∧
          ∃ t, lookupThread store tid = some t ∧
            jIsStr (extOf t "type") "showcase_submission" = true ∧
            s = mapPendingThread now t r.id := by
  intro reports
  induction reports with
  | nil => intro s hs; simp [getPendingSubmissionsOk] at hs
  | cons r rest ih =>
    intro s hs
    unfold getPendingSubmissionsOk at hs
    by_cases hr : r.type = "showcase_submission"
    · rw [if_pos hr] at hs
      cases htid : reportThreadId r with
      | none =>
        simp only [htid] at hs
        obtain ⟨r', hr', hrest⟩ := ih hs
        exact ⟨r', List.mem_cons_of_mem r hr', hrest⟩
      | some tid =>
        simp only [htid] at hs
        cases hlk : lookupThread store tid with
        | none =>
          simp only [hlk] at hs
          obtain ⟨r', hr', hrest⟩ := ih hs
          exact ⟨r', List.mem_cons_of_mem r hr', hrest⟩
        | some t =>
          simp only [hlk] at hs
          by_cases hty : jIsStr (extOf t "type") "showcase_submission" = true
          · rw [if_pos hty] at hs
            rcases List.mem_cons.mp hs with rfl | hs'
            · exact ⟨r, List.mem_cons_self r rest, hr, tid, htid, t, hlk, hty, rfl⟩
            · obtain ⟨r', hr', hrest⟩ := ih hs'
              exact ⟨r', List.mem_cons_of_mem r hr', hrest⟩
          · rw [if_neg hty] at hs
            obtain ⟨r', hr', hrest⟩ := ih hs
            exact ⟨r', List.mem_cons_of_mem r hr', hrest⟩
    · rw [if_neg hr] at hs
      obtain ⟨r', hr', hrest⟩ := ih hs
      exact ⟨r', List.mem_cons_of_mem r hr', hrest⟩

/-- Claim C5: every submission returned by a listing operation originates
from a thread whose extension-data type marker is `showcase_submission`;
a thread with any other marker is never included. -/
theorem listings_keep_only_showcase_threads :
    (∀ (now : String) (ts : List ThreadData) (s : Submission),
      s ∈ getApprovedSubmissions now (Except.ok ts) →
      ∃ t ∈ ts, jIsStr (extOf t "type") "showcase_submission" = true ∧
        s = mapApprovedThread now t) ∧
    (∀ (now : String) (ctx : Option AuthUser) (ts : List ThreadData)
        (s : Submission),
      s ∈ getMySubmissions now ctx (Except.ok ts) →
      ∃ t ∈ ts, jIsStr (extOf t "type") "showcase_submission" = true ∧
        s = mapMyThread now t) ∧
    (∀ (now : String) (ctx : Option AuthUser) (reports : List ReportData)
        (store : List ThreadData) (s : Submission),
      s ∈ getPendingSubmissions now ctx (Except.ok reports) store →
      ∃ t ∈ store, jIsStr (extOf t "type") "showcase_submission" = true ∧
        ∃ r ∈ reports, s = mapPendingThread now t r.id) := by
  refine ⟨?_, ?_, ?_⟩
  · intro now ts s hs
    obtain ⟨t, htm, hty, _, rfl⟩ := mem_getApprovedSubmissionsOk hs
    exact ⟨t, htm, hty, rfl⟩
  · intro now ctx ts s hs
    cases ctx with
    | none => simp [getMySubmissions] at hs
    | some u => exact mem_getMySubmissionsOk hs
  · intro now ctx reports store s hs
    cases ctx with
    | none => simp [getPendingSubmissions] at hs
    | some u =>
      by_cases ha : u.isAdmin
      · simp only [getPendingSubmissions, ha, if_true] at hs
        obtain ⟨r, hrm, _, tid, _, t, hlk, hty, rfl⟩ := mem_getPendingSubmissionsOk hs
        exact ⟨t, List.mem_of_find?_eq_some hlk, hty, r, hrm, rfl⟩
      · simp [getPendingSubmissions, ha] at hs

/-- Witness for C5: a store holding one approved showcase thread, whose
listing returns exactly the submission mapped from it. -/
theorem listings_keep_only_showcase_threads_witness :
    ∃ t ∈ [sampleThread],
      jIsStr (extOf t "type") "showcase_submission" = true ∧
        mapApprovedThread "n" sampleThread = mapApprovedThread "n" t :=
  listings_keep_only_showcase_threads.1 "n" [sampleThread]
    (mapApprovedThread "n" sampleThread) (List.mem_singleton.mpr rfl)

/-- Claim C10: every submission returned by the pending queue has status
`pending` (hardcoded on the report side, whatever status the extension-data
of the thread currently holds) and carries the id of its driving
pending report. -/
theorem pending_listing_hardcodes_pending_status :
    ∀ (now : String) (ctx : Option AuthUser) (reports : List ReportData)
      (store : List ThreadData) (s : Submission),
      s ∈ getPendingSubmissions now ctx (Except.ok reports) store →
      s.status = JVal.str "pending" ∧
        ∃ r ∈ reports, r.type = "showcase_submission" ∧ s.reportId = some r.id := by
  intro now ctx reports store s hs
  cases ctx with
  | none => simp [getPendingSubmissions] at hs
  | some u =>
    by_cases ha : u.isAdmin
    · simp only [getPendingSubmissions, ha, if_true] at hs
      obtain ⟨r, hrm, hrty, _, _, t, _, _, rfl⟩ := mem_getPendingSubmissionsOk hs
      exact ⟨rfl, r, hrm, hrty, rfl⟩
    · simp [getPendingSubmissions, ha] at hs

/-- Witness for C10: a thread whose extension-data already says
`approved` but whose report is still open is reported as pending. -/
theorem pending_listing_hardcodes_pending_status_witness :
    extOf sampleThread "status" = JVal.str "approved" ∧
      ((mapPendingThread "n" sampleThread "r1").status = JVal.str "pending" ∧
        ∃ r ∈ [sampleReport], r.type = "showcase_submission" ∧
          (mapPendingThread "n" sampleThread "r1").reportId = some r.id) :=
  ⟨rfl,
    pending_listing_hardcodes_pending_status "n" (some sampleAdmin)
      [sampleReport] [sampleThread] (mapPendingThread "n" sampleThread "r1")
      (List.mem_singleton.mpr rfl)⟩

theorem extOf_setCachedUpvotes (v : JVal) (t : ThreadData) (k : String)
    (hk : k ≠ "upvotes") : extOf (setCachedUpvotes v t) k = extOf t k := by
  have h := getField_objSet_other (t.extendedData.getD []) "upvotes" k v hk
  cases he : t.extendedData with
  | none => simpa [setCachedUpvotes, extOf, he, getField] using h
  | some fs => simpa [setCachedUpvotes, extOf, he] using h

theorem mapApprovedThread_setCachedUpvotes (now : String) (v : JVal)
    (t : ThreadData) :
    mapApprovedThread now (setCachedUpvotes v t) = mapApprovedThread now t := by
  unfold mapApprovedThread
  rw [extOf_setCachedUpvotes v t "images" (by decide),
    extOf_setCachedUpvotes v t "mainImageIndex" (by decide),
    extOf_setCachedUpvotes v t "projectUrl" (by decide),
    extOf_setCachedUpvotes v t "authorName" (by decide),
    extOf_setCachedUpvotes v t "status" (by decide)]
  rfl

theorem mapMyThread_setCachedUpvotes (now : String) (v : JVal) (t : ThreadData) :
    mapMyThread now (setCachedUpvotes v t) = mapMyThread now t := by
  unfold mapMyThread
  rw [mapApprovedThread_setCachedUpvotes,
    extOf_setCachedUpvotes v t "status" (by decide)]

theorem mapPendingThread_setCachedUpvotes (now : String) (v : JVal)
    (t : ThreadData) (rid : String) :
    mapPendingThread now (setCachedUpvotes v t) rid = mapPendingThread now t rid := by
  unfold mapPendingThread
  rw [mapApprovedThread_setCachedUpvotes]

theorem isApprovedShowcase_setCachedUpvotes (v : JVal) (t : ThreadData) :
    isApprovedShowcase (setCachedUpvotes v t) = isApprovedShowcase t := by
  unfold isApprovedShowcase
  rw [extOf_setCachedUpvotes v t "type" (by decide),
    extOf_setCachedUpvotes v t "status" (by decide)]

theorem getApprovedSubmissionsOk_setCachedUpvotes (now : String) (v : JVal)
    (ts : List ThreadData) :
    getApprovedSubmissionsOk now (ts.map (setCachedUpvotes v)) =
      getApprovedSubmissionsOk now ts := by
  induction ts with
  | nil => rfl
  | cons t rest ih =>
    unfold getApprovedSubmissionsOk at ih ⊢
    simp only [List.map_cons, List.filter_cons, isApprovedShowcase_setCachedUpvotes]
    by_cases hp : isApprovedShowcase t
    · simp [hp, mapApprovedThread_setCachedUpvotes, ih]
    · simp [hp, ih]

theorem getMySubmissionsOk_setCachedUpvotes (now : String) (v : JVal)
    (ts : List ThreadData) :
    getMySubmissionsOk now (ts.map (setCachedUpvotes v)) =
      getMySubmissionsOk now ts := by
  induction ts with
  | nil => rfl
  | cons t rest ih =>
    unfold getMySubmissionsOk at ih ⊢
    simp only [List.map_cons, List.filter_cons,
      extOf_setCachedUpvotes v t "type" (by decide)]
    by_cases hp : jIsStr (extOf t "type") "showcase_submission" = true
    · simp [hp, mapMyThread_setCachedUpvotes, ih]
    · simp [hp, ih]

theorem lookupThread_map_setCachedUpvotes (v : JVal) (store : List ThreadData)
    (tid : String) :
    lookupThread (store.map (setCachedUpvotes v)) tid =
      (lookupThread store tid).map (setCachedUpvotes v) := by
  induction store with
  | nil => rfl
  | cons t rest ih =>
    unfold lookupThread at ih ⊢
    by_cases h : t.id = tid
    · simp [List.find?_cons, setCachedUpvotes, h]
    · simpa [List.find?_cons, setCachedUpvotes, h] using ih

theorem getPendingSubmissionsOk_setCachedUpvotes (now : String) (v : JVal)
    (store : List ThreadData) :
    ∀ reports : List ReportData,
      getPendingSubmissionsOk now (store.map (setCachedUpvotes v)) reports =
        getPendingSubmissionsOk now store reports := by
  intro reports
  induction reports with
  | nil => rfl
  | cons r rest ih =>
    simp only [getPendingSubmissionsOk]
    rw [ih]
    by_cases hr : r.type = "showcase_submission"
    · simp only [hr, if_true]
      cases htid : reportThreadId r with
      | none => simp
      | some tid =>
        simp only [lookupThread_map_setCachedUpvotes]
        cases hlk : lookupThread store tid with
        | none => simp
        | some t =>
          have hmap : Option.map (setCachedUpvotes v) (some t) =
              some (setCachedUpvotes v t) := rfl
          simp only [hmap]
          rw [extOf_setCachedUpvotes v t "type" (by decide),
            mapPendingThread_setCachedUpvotes]
    · simp [hr]

/-- Claim C9: the `upvotes` field of every submission produced by the
listing mappers is the live reaction count of the thread (`_count.reactions`,
defaulting to 0 when absent) — equal to the number of LIKE reactions
whenever the count field is consistent with the reaction store — and all
three listings are unchanged when the cached `upvotes` field inside
extension-data is rewritten arbitrarily: that field is never read. -/
theorem upvotes_are_live_reaction_count :
    (∀ (now : String) (t : ThreadData),
      (mapApprovedThread now t).upvotes = t.countReactions.getD 0 ∧
        (mapMyThread now t).upvotes = t.countReactions.getD 0 ∧
        ∀ rid, (mapPendingThread now t rid).upvotes = t.countReactions.getD 0) ∧
    (∀ (now : String) (t : ThreadData) (rs : List Reaction),
      t.countReactions = some (likeCount rs) →
        (mapApprovedThread now t).upvotes = likeCount rs) ∧
    (∀ (now : String) (v : JVal) (ts : List ThreadData),
      getApprovedSubmissions now (Except.ok (ts.map (setCachedUpvotes v))) =
        getApprovedSubmissions now (Except.ok ts)) ∧
    (∀ (now : String) (ctx : Option AuthUser) (v : JVal) (ts : List ThreadData),
      getMySubmissions now ctx (Except.ok (ts.map (setCachedUpvotes v))) =
        getMySubmissions now ctx (Except.ok ts)) ∧
    (∀ (now : String) (ctx : Option AuthUser) (v : JVal)
        (reports : List ReportData) (store : List ThreadData),
      getPendingSubmissions now ctx (Except.ok reports)
          (store.map (setCachedUpvotes v)) =
        getPendingSubmissions now ctx (Except.ok reports) store) := by
  refine ⟨fun now t => ⟨rfl, rfl, fun rid => rfl⟩, ?_, ?_, ?_, ?_⟩
  · intro now t rs h
    simp [mapApprovedThread, h]
  · intro now v ts
    simpa [getApprovedSubmissions] using
      getApprovedSubmissionsOk_setCachedUpvotes now v ts
  · intro now ctx v ts
    cases ctx with
    | none => rfl
    | some u =>
      simpa [getMySubmissions] using getMySubmissionsOk_setCachedUpvotes now v ts
  · intro now ctx v reports store
    cases ctx with
    | none => rfl
    | some u =>
      by_cases ha : u.isAdmin
      · simpa [getPendingSubmissions, ha] using
          getPendingSubmissionsOk_setCachedUpvotes now v store reports
      · simp [getPendingSubmissions, ha]

/-- Witness for C9: a thread whose stored reaction count agrees with a
two-like reaction store maps to a submission with two upvotes. -/
theorem upvotes_are_live_reaction_count_witness :
    sampleThread.countReactions =
        some (likeCount
          [{ id := "x", userId := "u1", type := "LIKE" },
           { id := "y", userId := "u2", type := "LIKE" }]) ∧
      (mapApprovedThread "n" sampleThread).upvotes =
        likeCount
          [{ id := "x", userId := "u1", type := "LIKE" },
           { id := "y", userId := "u2", type := "LIKE" }] :=
  ⟨rfl,
    upvotes_are_live_reaction_count.2.1 "n" sampleThread
      [{ id := "x", userId := "u1", type := "LIKE" },
       { id := "y", userId := "u2", type := "LIKE" }] rfl⟩

/-- Claim C4: with no LIKE by the caller, `toggleUpvote` creates one and
reports `liked`; with an existing LIKE it deletes exactly that reaction
and reports `unliked`; hence two immediately successive calls starting
with no LIKE report `liked` then `unliked` and restore the reaction list
(and so the reaction count) exactly. -/
theorem toggleUpvote_toggle_semantics (u : AuthUser) (freshId freshId2 : String)
    (rs : List Reaction) :
    (findLike u.id rs = none →
      toggleUpvote (some u) freshId rs =
        (ToggleResult.liked,
          rs ++ [{ id := freshId, userId := u.id, type := "LIKE" }])) ∧
    (∀ r, findLike u.id rs = some r →
      toggleUpvote (some u) freshId rs =
        (ToggleResult.unliked, rs.filter (fun x => x.id ≠ r.id))) ∧
    (findLike u.id rs = none → (∀ r ∈ rs, r.id ≠ freshId) →
      (toggleUpvote (some u) freshId rs).1 = ToggleResult.liked ∧
        (toggleUpvote (some u) freshId2
          (toggleUpvote (some u) freshId rs).2).1 = ToggleResult.unliked ∧
        (toggleUpvote (some u) freshId2
          (toggleUpvote (some u) freshId rs).2).2 = rs ∧
        (toggleUpvote (some u) freshId2
          (toggleUpvote (some u) freshId rs).2).2.length = rs.length) := by
  refine ⟨?_, ?_, ?_⟩
  · intro h
    simp [toggleUpvote, h]
  · intro r h
    simp [toggleUpvote, h]
  · intro h hfresh
    have h1 : toggleUpvote (some u) freshId rs =
        (ToggleResult.liked,
          rs ++ [{ id := freshId, userId := u.id, type := "LIKE" }]) := by
      simp [toggleUpvote, h]
    have hfind : findLike u.id
        (rs ++ [{ id := freshId, userId := u.id, type := "LIKE" }]) =
        some { id := freshId, userId := u.id, type := "LIKE" } := by
      unfold findLike at h ⊢
      rw [List.find?_append, h]
      simp
    have h2 : toggleUpvote (some u) freshId2
        (rs ++ [{ id := freshId, userId := u.id, type := "LIKE" }]) =
        (ToggleResult.unliked,
          (rs ++ [({ id := freshId, userId := u.id, type := "LIKE" } : Reaction)]).filter
            (fun x => x.id ≠ freshId)) := by
      simp [toggleUpvote, hfind]
    have hrs : rs.filter (fun x => x.id ≠ freshId) = rs :=
      List.filter_eq_self.mpr (fun a ha => by simpa using hfresh a ha)
    have hfilter : (rs ++ [({ id := freshId, userId := u.id, type := "LIKE" } : Reaction)]).filter
        (fun x => x.id ≠ freshId) = rs := by
      rw [List.filter_append, hrs]
      simp
    refine ⟨by simp [h1], ?_, ?_, ?_⟩
    · simp only [h1]
      rw [h2]
    · simp only [h1]
      rw [h2]
      exact hfilter
    · simp only [h1]
      rw [h2]
      exact congrArg List.length hfilter

/-- Witness for C4: a fresh caller on a thread with no reactions likes
then unlikes it, ending with the empty reaction list again. -/
theorem toggleUpvote_toggle_semantics_witness :
    findLike sampleUser.id [] = none ∧
      (toggleUpvote (some sampleUser) "k1" []).1 = ToggleResult.liked ∧
      (toggleUpvote (some sampleUser) "k2"
        (toggleUpvote (some sampleUser) "k1" []).2).1 = ToggleResult.unliked ∧
      (toggleUpvote (some sampleUser) "k2"
        (toggleUpvote (some sampleUser) "k1" []).2).2 = [] := by
  have h := (toggleUpvote_toggle_semantics sampleUser "k1" "k2" []).2.2 rfl
    (by simp)
  exact ⟨rfl, h.1, h.2.1, h.2.2.1⟩

theorem getField_getD_extOf (t : ThreadData) (k : String) :
    getField (t.extendedData.getD []) k = extOf t k := by
  cases h : t.extendedData <;> simp [extOf, h, getField]

/-- Claim C1 (defect in the legacy variant): the current
`approveSubmission`/`rejectSubmission` read the bag of the thread and write
back a merge in which only `status` changes and every other field reads
as before; the part_001 variant instead writes the one-field object
`\x7bstatus\x7d` wholesale, so a previously present `images` field reads
as undefined after its write. -/
theorem approve_reject_merge_only_status :
    (∀ (store : List ThreadData) (threadId reportId : String) (t : ThreadData),
      lookupThread store threadId = some t →
        (approveSubmission true store threadId reportId).2.threadWrite =
            some (threadId,
              objSet (t.extendedData.getD []) "status" (JVal.str "approved")) ∧
          getField (objSet (t.extendedData.getD []) "status" (JVal.str "approved"))
              "status" = JVal.str "approved" ∧
          ∀ k, k ≠ "status" →
            getField (objSet (t.extendedData.getD []) "status" (JVal.str "approved"))
              k = extOf t k) ∧
    (∀ (store : List ThreadData) (threadId reportId : String) (t : ThreadData),
      lookupThread store threadId = some t →
        (rejectSubmission true store threadId reportId).2.threadWrite =
            some (threadId,
              objSet (t.extendedData.getD []) "status" (JVal.str "rejected")) ∧
          getField (objSet (t.extendedData.getD []) "status" (JVal.str "rejected"))
              "status" = JVal.str "rejected" ∧
          ∀ k, k ≠ "status" →
            getField (objSet (t.extendedData.getD []) "status" (JVal.str "rejected"))
              k = extOf t k) ∧
    ((approveSubmissionV1 true "t1" "r1").2.threadWrite =
        some ("t1", [("status", JVal.str "approved")]) ∧
      getField [("status", JVal.str "approved")] "images" = JVal.null ∧
      extOf sampleThread "images" = encodeImages sampleImages ∧
      encodeImages sampleImages ≠ JVal.null ∧
      (approveSubmission true [sampleThread] "t1" "r1").2.threadWrite =
        some ("t1", objSet sampleExt "status" (JVal.str "approved")) ∧
      getField (objSet sampleExt "status" (JVal.str "approved")) "images" =
        encodeImages sampleImages) := by
  refine ⟨?_, ?_, rfl, rfl, rfl, by simp [encodeImages], rfl, rfl⟩
  · intro store threadId reportId t hl
    refine ⟨by simp [approveSubmission, hl], getField_objSet_same _ _ _, ?_⟩
    intro k hk
    rw [getField_objSet_other _ _ _ _ hk, getField_getD_extOf]
  · intro store threadId reportId t hl
    refine ⟨by simp [rejectSubmission, hl], getField_objSet_same _ _ _, ?_⟩
    intro k hk
    rw [getField_objSet_other _ _ _ _ hk, getField_getD_extOf]

/-- Witness for C1: the merge write of the current approval on the
sample store changes only `status` and keeps `images` readable. -/
theorem approve_reject_merge_only_status_witness :
    (approveSubmission true [sampleThread] "t1" "r1").2.threadWrite =
        some ("t1", objSet (sampleThread.extendedData.getD []) "status"
          (JVal.str "approved")) ∧
      getField (objSet (sampleThread.extendedData.getD []) "status"
        (JVal.str "approved")) "status" = JVal.str "approved" ∧
      getField (objSet (sampleThread.extendedData.getD []) "status"
        (JVal.str "approved")) "images" = extOf sampleThread "images" := by
  have h := approve_reject_merge_only_status.1 [sampleThread] "t1" "r1"
    sampleThread rfl
  exact ⟨h.1, h.2.1, h.2.2 "images" (by decide)⟩

theorem guard_eq_nil_iff (c : Prop) [Decidable c] (x : ValidationIssue) :
    (if c then [x] else []) = [] ↔ ¬c := by
  by_cases h : c <;> simp [h]

theorem titleIssues_eq_nil_iff (s : String) :
    titleIssues s = [] ↔ (1 ≤ s.length ∧ s.length ≤ 200) := by
  unfold titleIssues
  rw [List.append_eq_nil, guard_eq_nil_iff, guard_eq_nil_iff]
  omega

theorem descriptionIssues_eq_nil_iff (s : String) :
    descriptionIssues s = [] ↔ (10 ≤ s.length ∧ s.length ≤ 5000) := by
  unfold descriptionIssues
  rw [List.append_eq_nil, guard_eq_nil_iff, guard_eq_nil_iff]
  omega

theorem imagesElemIssues_eq_nil_iff (validUrl : String → Bool) :
    ∀ (idx : Nat) (l : List ImageUpload),
      imagesElemIssues validUrl idx l = [] ↔ ∀ img ∈ l, validUrl img.url = true := by
  intro idx l
  induction l generalizing idx with
  | nil => simp [imagesElemIssues]
  | cons img rest ih =>
    by_cases h : validUrl img.url = true
    · simp [imagesElemIssues, imageIssues, h, ih]
    · simp [imagesElemIssues, imageIssues, h]

theorem imagesIssues_eq_nil_iff (validUrl : String → Bool)
    (images : List ImageUpload) :
    imagesIssues validUrl images = [] ↔
      (1 ≤ images.length ∧ images.length ≤ 10 ∧
        ∀ img ∈ images, validUrl img.url = true) := by
  unfold imagesIssues
  rw [List.append_eq_nil, List.append_eq_nil, guard_eq_nil_iff, guard_eq_nil_iff,
    imagesElemIssues_eq_nil_iff]
  constructor
  · rintro ⟨⟨he, h1⟩, h2⟩
    exact ⟨by omega, by omega, he⟩
  · rintro ⟨h1, h2, he⟩
    exact ⟨⟨he, by omega⟩, by omega⟩

theorem mainImageIndexIssues_eq_nil_iff (idx : Int) :
    mainImageIndexIssues idx = [] ↔ 0 ≤ idx := by
  unfold mainImageIndexIssues
  rw [guard_eq_nil_iff]
  omega

theorem projectUrlIssues_eq_nil_iff (validUrl : String → Bool)
    (projectUrl : Option String) :
    projectUrlIssues validUrl projectUrl = [] ↔
      (projectUrl = none ∨ projectUrl = some "" ∨
        ∃ u, projectUrl = some u ∧ validUrl u = true) := by
  cases projectUrl with
  | none => simp [projectUrlIssues]
  | some u =>
    by_cases h1 : u = ""
    · subst h1
      simp [projectUrlIssues]
    · by_cases h2 : validUrl u = true
      · simp only [projectUrlIssues, h1, if_neg, h2, if_true]
        exact ⟨fun _ => Or.inr (Or.inr ⟨u, rfl, h2⟩), fun _ => rfl⟩
      · simp [projectUrlIssues, h1, h2]

theorem validateCreateSubmission_eq_nil_iff (validUrl : String → Bool)
    (input : CreateInput) :
    validateCreateSubmission validUrl input = [] ↔
      (1 ≤ input.title.length ∧ input.title.length ≤ 200 ∧
        10 ≤ input.description.length ∧ input.description.length ≤ 5000 ∧
        1 ≤ input.images.length ∧ input.images.length ≤ 10 ∧
        (∀ img ∈ input.images, validUrl img.url = true) ∧
        0 ≤ input.mainImageIndex ∧
        (input.projectUrl = none ∨ input.projectUrl = some "" ∨
          ∃ u, input.projectUrl = some u ∧ validUrl u = true)) := by
  unfold validateCreateSubmission
  rw [List.append_eq_nil, List.append_eq_nil, List.append_eq_nil,
    List.append_eq_nil, titleIssues_eq_nil_iff, descriptionIssues_eq_nil_iff,
    imagesIssues_eq_nil_iff, mainImageIndexIssues_eq_nil_iff,
    projectUrlIssues_eq_nil_iff]
  tauto

/-- Claim C2: `createSubmission` fails with a per-field validation error
and performs no write exactly when an input constraint (title 1-200,
description 10-5000, images 1-10 well-formed entries, non-negative
main-image index, project URL well-formed or empty) is violated; an
unauthenticated caller gets an authentication error with no write; a
throttling backend yields a rate-limit error; any other backend failure
yields an internal error; on success both writes are issued. -/
theorem createSubmission_error_taxonomy :
    (∀ (validUrl : String → Bool) (input : CreateInput),
      validateCreateSubmission validUrl input = [] ↔
        (1 ≤ input.title.length ∧ input.title.length ≤ 200 ∧
          10 ≤ input.description.length ∧ input.description.length ≤ 5000 ∧
          1 ≤ input.images.length ∧ input.images.length ≤ 10 ∧
          (∀ img ∈ input.images, validUrl img.url = true) ∧
          0 ≤ input.mainImageIndex ∧
          (input.projectUrl = none ∨ input.projectUrl = some "" ∨
            ∃ u, input.projectUrl = some u ∧ validUrl u = true))) ∧
    (∀ validUrl input ctx backend i rest,
      validateCreateSubmission validUrl input = i :: rest →
        createSubmission validUrl input ctx backend =
          (CreateResult.err ⟨ErrCode.validationError, i.message, i :: rest⟩, [])) ∧
    (∀ validUrl input backend,
      validateCreateSubmission validUrl input = [] →
        createSubmission validUrl input none backend =
          (CreateResult.err ⟨ErrCode.unauthorized, "Not authenticated", []⟩, [])) ∧
    (∀ validUrl input user,
      validateCreateSubmission validUrl input = [] →
        createSubmission validUrl input (some user)
            (CreateBackend.threadCreateFails BackendFail.rateLimited) =
          (CreateResult.err ⟨ErrCode.rateLimited,
            "Too many requests. Please try again later.", []⟩, []) ∧
        ∀ tid, createSubmission validUrl input (some user)
            (CreateBackend.reportCreateFails tid BackendFail.rateLimited) =
          (CreateResult.err ⟨ErrCode.rateLimited,
            "Too many requests. Please try again later.", []⟩,
            [WriteEffect.createThread input.title input.description
              (submissionExtData input user)])) ∧
    (∀ validUrl input user e,
      (e = BackendFail.notFoundFail ∨ e = BackendFail.otherFail) →
      validateCreateSubmission validUrl input = [] →
        createSubmission validUrl input (some user)
            (CreateBackend.threadCreateFails e) =
          (CreateResult.err ⟨ErrCode.internalError,
            "Failed to create submission", []⟩, [])) ∧
    (∀ validUrl input user tid,
      validateCreateSubmission validUrl input = [] →
        createSubmission validUrl input (some user) (CreateBackend.ok tid) =
          (CreateResult.ok tid,
            [WriteEffect.createThread input.title input.description
              (submissionExtData input user),
             WriteEffect.createReport tid "showcase_submission" "pending"
              ("New showcase submission: " ++ input.title)])) := by
  refine ⟨validateCreateSubmission_eq_nil_iff, ?_, ?_, ?_, ?_, ?_⟩
  · intro validUrl input ctx backend i rest hv
    simp [createSubmission, hv]
  · intro validUrl input backend hv
    simp [createSubmission, hv]
  · intro validUrl input user hv
    exact ⟨by simp [createSubmission, hv, createFailError],
      fun tid => by simp [createSubmission, hv, createFailError]⟩
  · intro validUrl input user e he hv
    rcases he with rfl | rfl <;> simp [createSubmission, hv, createFailError]
  · intro validUrl input user tid hv
    simp [createSubmission, hv]

/-- Witness for C2: a concrete invalid input fails with the per-field
issue list and no write; a concrete valid input is rejected for an
unauthenticated caller and creates the thread and report for an
authenticated one. -/
theorem createSubmission_error_taxonomy_witness :
    validateCreateSubmission (fun _ => true) sampleBadInput =
        ⟨"title", "Title is required"⟩ ::
          [⟨"description", "Description must be at least 10 characters"⟩,
           ⟨"images", "At least one image is required"⟩,
           ⟨"mainImageIndex", "Number must be greater than or equal to 0"⟩] ∧
      createSubmission (fun _ => true) sampleBadInput (some sampleUser)
          (CreateBackend.ok "t1") =
        (CreateResult.err ⟨ErrCode.validationError, "Title is required",
          ⟨"title", "Title is required"⟩ ::
            [⟨"description", "Description must be at least 10 characters"⟩,
             ⟨"images", "At least one image is required"⟩,
             ⟨"mainImageIndex", "Number must be greater than or equal to 0"⟩]⟩,
          []) ∧
      validateCreateSubmission (fun _ => true) sampleGoodInput = [] ∧
      createSubmission (fun _ => true) sampleGoodInput none
          (CreateBackend.ok "t1") =
        (CreateResult.err ⟨ErrCode.unauthorized, "Not authenticated", []⟩, []) ∧
      createSubmission (fun _ => true) sampleGoodInput (some sampleUser)
          (CreateBackend.ok "t1") =
        (CreateResult.ok "t1",
          [WriteEffect.createThread sampleGoodInput.title
            sampleGoodInput.description
            (submissionExtData sampleGoodInput sampleUser),
           WriteEffect.createReport "t1" "showcase_submission" "pending"
            ("New showcase submission: " ++ sampleGoodInput.title)]) :=
  ⟨rfl,
    createSubmission_error_taxonomy.2.1 (fun _ => true) sampleBadInput
      (some sampleUser) (CreateBackend.ok "t1")
      ⟨"title", "Title is required"⟩
      [⟨"description", "Description must be at least 10 characters"⟩,
       ⟨"images", "At least one image is required"⟩,
       ⟨"mainImageIndex", "Number must be greater than or equal to 0"⟩] rfl,
    rfl,
    createSubmission_error_taxonomy.2.2.1 (fun _ => true) sampleGoodInput
      (CreateBackend.ok "t1") rfl,
    createSubmission_error_taxonomy.2.2.2.2.2 (fun _ => true) sampleGoodInput
      sampleUser "t1" rfl⟩

/-- Counterexample to claim C3 as stated: a present but wrong-shaped
truthy extension-data field is passed through unchanged, not replaced by
the default.  Here `images` holds the number 5 and `status` holds the
string `weird`: the mapper output keeps both instead of substituting
`[]` and `pending`. -/
theorem threadToSubmission_wrong_shape_not_defaulted :
    (threadToSubmission "now"
        { id := "t1", title := "T", body := "B",
          extendedData := some
            [("type", JVal.str "showcase_submission"),
             ("images", JVal.num 5),
             ("status", JVal.str "weird")],
          createdAt := "2024", userId := some "u1", countReactions := some 0 }
        none).images = JVal.num 5 ∧
      JVal.num 5 ≠ JVal.arr [] ∧
      (threadToSubmission "now"
        { id := "t1", title := "T", body := "B",
          extendedData := some
            [("type", JVal.str "showcase_submission"),
             ("images", JVal.num 5),
             ("status", JVal.str "weird")],
          createdAt := "2024", userId := some "u1", countReactions := some 0 }
        none).status = JVal.str "weird" ∧
      JVal.str "weird" ≠ JVal.str "pending" := by
  refine ⟨rfl, by simp, rfl, by simp⟩

/-- Claim C3 as amended: the mapper is a total function (never throws)
that substitutes the defaults exactly when the corresponding
extension-data field is absent or falsy; a present truthy value — even
of the wrong shape — is passed through unchanged, and `projectUrl` is
always passed through raw. -/
theorem threadToSubmission_total_with_falsy_defaults :
    ∀ (now : String) (t : ThreadData) (rid : Option String),
      (truthy (extOf t "images") = false →
        (threadToSubmission now t rid).images = JVal.arr []) ∧
      (truthy (extOf t "images") = true →
        (threadToSubmission now t rid).images = extOf t "images") ∧
      (truthy (extOf t "mainImageIndex") = false →
        (threadToSubmission now t rid).mainImageIndex = JVal.num 0) ∧
      (truthy (extOf t "mainImageIndex") = true →
        (threadToSubmission now t rid).mainImageIndex = extOf t "mainImageIndex") ∧
      (truthy (extOf t "status") = false →
        (threadToSubmission now t rid).status = JVal.str "pending") ∧
      (truthy (extOf t "status") = true →
        (threadToSubmission now t rid).status = extOf t "status") ∧
      (truthy (extOf t "authorName") = false →
        (threadToSubmission now t rid).authorName = JVal.str "Anonymous") ∧
      (truthy (extOf t "authorName") = true →
        (threadToSubmission now t rid).authorName = extOf t "authorName") ∧
      (threadToSubmission now t rid).projectUrl = extOf t "projectUrl" ∧
      (threadToSubmission now t rid).reportId = rid := by
  intro now t rid
  refine ⟨?_, ?_, ?_, ?_, ?_, ?_, ?_, ?_, rfl, rfl⟩ <;>
    intro h <;> simp [threadToSubmission, jsOr, h]

/-- Witness for C3 (amended): a thread with a missing extension-data bag
maps to the all-default submission. -/
theorem threadToSubmission_total_with_falsy_defaults_witness :
    truthy (extOf
        { id := "t0", title := "T", body := "B", extendedData := none,
          createdAt := "c", userId := none, countReactions := none }
        "images") = false ∧
      (threadToSubmission "n"
        { id := "t0", title := "T", body := "B", extendedData := none,
          createdAt := "c", userId := none, countReactions := none }
        none).images = JVal.arr [] ∧
      (threadToSubmission "n"
        { id := "t0", title := "T", body := "B", extendedData := none,
          createdAt := "c", userId := none, countReactions := none }
        none).status = JVal.str "pending" :=
  ⟨rfl,
    (threadToSubmission_total_with_falsy_defaults "n"
      { id := "t0", title := "T", body := "B", extendedData := none,
        createdAt := "c", userId := none, countReactions := none } none).1 rfl,
    (threadToSubmission_total_with_falsy_defaults "n"
      { id := "t0", title := "T", body := "B", extendedData := none,
        createdAt := "c", userId := none, countReactions := none }
      none).2.2.2.2.1 rfl⟩

/-- Claim C7: for a submission whose image list is non-empty but whose
main-image index is out of range (negative, or at least the length — in
particular equal to it), the mapper still produces a value passing both
fields through, and the card cover falls back to the URL of the first
image. -/
theorem out_of_range_main_image_falls_back_to_first :
    ∀ (now : String) (t : ThreadData) (rid : Option String)
      (first : ImageUpload) (rest : List ImageUpload) (n : Int),
      extOf t "images" = encodeImages (first :: rest) →
      extOf t "mainImageIndex" = JVal.num n →
      (n < 0 ∨ ((first :: rest).length : Int) ≤ n) →
      (threadToSubmission now t rid).images = encodeImages (first :: rest) ∧
        (threadToSubmission now t rid).mainImageIndex = JVal.num n ∧
        cardCoverSrc (first :: rest) n = some first.url := by
  intro now t rid first rest n himg hidx hrange
  refine ⟨?_, ?_, ?_⟩
  · simp [threadToSubmission, jsOr, himg, encodeImages, truthy]
  · have hn0 : n ≠ 0 := by
      rcases hrange with h | h
      · omega
      · have : (0 : Int) < ((first :: rest).length : Int) := by
          simp
        omega
    simp [threadToSubmission, jsOr, hidx, truthy, hn0]
  · unfold cardCoverSrc
    rcases hrange with hneg | hge
    · simp [hneg]
    · have hnotneg : ¬ n < 0 := by omega
      have hlen : (first :: rest).length ≤ n.toNat := by omega
      simp [hnotneg, List.getElem?_eq_none hlen]

/-- Witness for C7: two images with main-image index 2 (equal to the
length): the mapper passes both through and the cover is the first
image. -/
theorem out_of_range_main_image_falls_back_to_first_witness :
    extOf
        { id := "t2", title := "T", body := "B",
          extendedData := some
            [("type", JVal.str "showcase_submission"),
             ("images", encodeImages sampleImages),
             ("mainImageIndex", JVal.num 2)],
          createdAt := "c", userId := some "u1", countReactions := some 0 }
        "images" = encodeImages
          ({ url := "https://example.com/a.png", name := "a.png" } ::
            [{ url := "https://example.com/b.png", name := "b.png" }]) ∧
      cardCoverSrc
        ({ url := "https://example.com/a.png", name := "a.png" } ::
          [{ url := "https://example.com/b.png", name := "b.png" }]) 2 =
        some "https://example.com/a.png" :=
  ⟨rfl,
    (out_of_range_main_image_falls_back_to_first "n"
      { id := "t2", title := "T", body := "B",
        extendedData := some
          [("type", JVal.str "showcase_submission"),
           ("images", encodeImages sampleImages),
           ("mainImageIndex", JVal.num 2)],
        createdAt := "c", userId := some "u1", countReactions := some 0 }
      none { url := "https://example.com/a.png", name := "a.png" }
      [{ url := "https://example.com/b.png", name := "b.png" }] 2
      rfl rfl (Or.inr (by simp))).2.2⟩

end Showcase
